import Mathlib

/-!
Shallow embedding of `src/frontend/lib/tools/auto.ts` (the `autoAnswer`
orchestration function and its helper `createUserMessages`).

External collaborators (the LLM provider stream, the search engine, the
tool implementations, `directlyAnswer`, `getRelatedQuestions`,
`getHistory`, `saveMessages`, prompt formatting, URL extraction) are
modelled as an environment `Env` supplying their observable results.
The function itself is embedded as a deterministic trace transformer:
it returns the sequence of observable events (stream-callback
invocations, the `streamText` configuration, promise initiations,
the `directlyAnswer` / `getRelatedQuestions` calls, the
`incSearchCount` and `saveMessages` calls, error logging), together
with the `saveMessages` arguments (if any), an early-return flag and a
flag recording whether the top-level catch block ran.
-/

/-- A text source as accumulated from tool results and passed to
`directlyAnswer`, `getRelatedQuestions` and `saveMessages`. -/
structure TextSource where
  title : String
  url : String
  content : String
  deriving DecidableEq, Repr

/-- An image source; `image` is the image URL tested with
`startsWith('https')` in the fetched-image filter. -/
structure ImageSource where
  title : String
  url : String
  image : String
  deriving DecidableEq, Repr

/-- A video source returned by the video search. -/
structure VideoSource where
  title : String
  url : String
  deriving DecidableEq, Repr

/-- The search categories used by `auto.ts`: the `source` parameter
starts as `ALL` (by default), may be mutated to `WEB_PAGE`, and the
fetches use `IMAGES` and `VIDEOS`. -/
inductive SearchCategory where
  | all
  | images
  | videos
  | webPage
  deriving DecidableEq, Repr

/-- A stored chat message (`StoreMessage`): only `content` and
`attachments` are read by `autoAnswer`. -/
structure StoreMessage where
  role : String
  content : String
  attachments : Option (List String)
  deriving DecidableEq, Repr

/-- A part of the user message content: a text part or an image part. -/
inductive ContentPart where
  | text (s : String)
  | image (url : String)
  deriving DecidableEq, Repr

/-- A user-role message sent to the model. -/
structure UserMessage where
  role : String
  content : List ContentPart
  deriving DecidableEq, Repr

/-- The JSON object shapes that `auto.ts` serializes with
`JSON.stringify` and passes to the stream callback. -/
inductive Payload where
  | status (s : String)
  | answer (s : String)
  | error (e : String)
  | related (s : String)
  | sourcesStatus (sources : List TextSource) (status : String)
  | statusClear (status : String)
  | images (l : List ImageSource)
  | videos (l : List VideoSource)
  deriving DecidableEq, Repr

/-- The first argument of a stream-callback invocation: a serialized
JSON object, or `null`. -/
inductive StreamArg where
  | json (p : Payload)
  | nullArg
  deriving DecidableEq, Repr

/-- One event of the model's full stream, as branched on by the
`switch (delta.type)` in the consumption loop. `other` stands for any
delta type the switch ignores (e.g. `finish`, `step-start`). -/
inductive Delta where
  | textDelta (s : String)
  | toolCall
  | toolResultGetInformation (texts : List TextSource) (images : List ImageSource)
      (question : String)
  | toolResultAccessWebPage (texts : List TextSource)
  | error (e : String)
  | other
  deriving DecidableEq, Repr

/-- Which internal function a tool's `execute` closure calls. -/
inductive ToolBackend where
  | searchRelevantContent (userId : String)
  | accessWebPage
  deriving DecidableEq, Repr

/-- A tool made available to the model in the `streamText` call. -/
structure ToolSpec where
  name : String
  description : String
  paramName : String
  backend : ToolBackend
  deriving DecidableEq, Repr

/-- The configuration `autoAnswer` passes to `streamText`. -/
structure StreamTextConfig where
  model : String
  system : String
  userMessages : List UserMessage
  maxTokens : Nat
  tools : List ToolSpec
  deriving DecidableEq, Repr

/-- The arguments of the `saveMessages` persistence call. -/
structure SaveArgs where
  userId : String
  messages : List StoreMessage
  answer : String
  texts : List TextSource
  images : List ImageSource
  videos : List VideoSource
  related : String
  deriving DecidableEq, Repr

/-- An observable event of one `autoAnswer` run. `stream arg d` is an
invocation `onStream(arg, d)` (a single-argument call has `d = false`,
since the omitted second argument is falsy). -/
inductive Event where
  | stream (arg : StreamArg) (d : Bool)
  | logError (tag : String)
  | streamTextCall (cfg : StreamTextConfig)
  | imageFetchStart (q : String)
  | videoFetchStart (q : String)
  | directAnswerCall (isPro : Bool) (source : SearchCategory) (history : String)
      (profile : Option String) (model : String) (q : String) (texts : List TextSource)
  | relatedCall (q : String) (texts : List TextSource)
  | incSearch (userId : String)
  | save (args : SaveArgs)
  deriving DecidableEq, Repr

/-- The environment: observable results of all external collaborators of
`autoAnswer`. Functions that live in other modules of the repository
(`getHistory`, `extractAllImageUrls`, `replaceImageUrl`,
`getMaxOutputToken`, `util.format` applied to `AutoAnswerPrompt`) are
opaque parameters; the model stream, the `directlyAnswer` and
`getRelatedQuestions` callbacks and the search results are given as
data. `streamTextExn` models the awaited `streamText` call throwing. -/
structure Env where
  deltas : List Delta
  streamTextExn : Bool
  directChunks : List String
  directError : Option String
  relatedChunks : List String
  imageResults : List ImageSource
  videoResults : List VideoSource
  extractAllImageUrls : String → List String
  replaceImageUrl : String → List String → String
  getHistoryF : Bool → List StoreMessage → String
  formatPrompt : Option String → String → String
  getMaxOutputToken : Bool → Nat

/-- The parameters of one `autoAnswer` invocation. -/
structure Inputs where
  messages : List StoreMessage
  isPro : Bool
  userId : String
  profile : Option String
  model : String
  source : SearchCategory

/-- Embedding of `attachmentsToParts`: each attachment becomes an image
part. -/
def attachmentsToParts (attachments : List String) : List ContentPart :=
  attachments.map (fun a => ContentPart.image a)

/-- Embedding of `createUserMessages`: when no attachments are given,
image URLs are extracted from the query text and, if any are found, the
query text has them replaced; the single user message holds the text
part followed by the image parts. -/
def createUserMessages (env : Env) (query : String) (attachments : List String) :
    List UserMessage :=
  let p :=
    if attachments = [] then
      let ex := env.extractAllImageUrls query
      if ex ≠ [] then (env.replaceImageUrl query ex, ex) else (query, ex)
    else (query, attachments)
  [{ role := "user", content := ContentPart.text p.1 :: attachmentsToParts p.2 }]

/-- The two tools `autoAnswer` registers in the `streamText` call:
`getInformation` (backed by `searchRelevantContent`) and `accessWebPage`
(backed by `accessWebPage`). -/
def autoTools (userId : String) : List ToolSpec :=
  [ { name := "getInformation",
      description := "get information from internet to answer user questions.",
      paramName := "question",
      backend := ToolBackend.searchRelevantContent userId },
    { name := "accessWebPage",
      description := "access a webpage or url and return the content.",
      paramName := "url",
      backend := ToolBackend.accessWebPage } ]

/-- The `streamText` configuration built by `autoAnswer` from the last
message `m` of the input list: the system prompt is the formatted
template over the profile and the history of all messages, the user
messages come from `createUserMessages` on `m` alone, and the tools are
`autoTools`. -/
def mkConfig (env : Env) (inp : Inputs) (m : StoreMessage) : StreamTextConfig :=
  { model := inp.model,
    system := env.formatPrompt inp.profile (env.getHistoryF inp.isPro inp.messages),
    userMessages := createUserMessages env m.content (m.attachments.getD []),
    maxTokens := env.getMaxOutputToken inp.isPro,
    tools := autoTools inp.userId }

/-- The mutable state of the stream-consumption loop of `autoAnswer`,
together with the trace of events emitted so far. -/
structure LoopState where
  hasAnswer : Bool
  fullAnswer : String
  rewriteQuery : String
  toolCallCount : Nat
  hasError : Bool
  texts : List TextSource
  images : List ImageSource
  source : SearchCategory
  trace : List Event
  deriving Repr

/-- One iteration of the `for await (const delta of result.fullStream)`
loop: the `switch (delta.type)` of `auto.ts`. An empty `textDelta` is
falsy and is skipped; the first non-empty text delta also emits the
`Answering ...` status; a `tool-call` increments the counter and emits
`Searching ...`; tool results accumulate sources (and rewrite the query
or switch the source to `WEB_PAGE`); an `error` delta records the error,
emits the error payload and the `(null, true)` termination call, and
logs the error. -/
def step (st : LoopState) (d : Delta) : LoopState :=
  match d with
  | Delta.textDelta s =>
      if s ≠ "" then
        let st1 :=
          if !st.hasAnswer then
            { st with hasAnswer := true,
                      trace := st.trace ++
                        [Event.stream (StreamArg.json (Payload.status "Answering ...")) false] }
          else st
        { st1 with fullAnswer := st1.fullAnswer ++ s,
                   trace := st1.trace ++
                     [Event.stream (StreamArg.json (Payload.answer s)) false] }
      else st
  | Delta.toolCall =>
      { st with toolCallCount := st.toolCallCount + 1,
                trace := st.trace ++
                  [Event.stream (StreamArg.json (Payload.status "Searching ...")) false] }
  | Delta.toolResultGetInformation texts images question =>
      { st with texts := st.texts ++ texts,
                images := st.images ++ images,
                rewriteQuery := question }
  | Delta.toolResultAccessWebPage texts =>
      { st with texts := st.texts ++ texts,
                source := SearchCategory.webPage }
  | Delta.error e =>
      { st with hasError := true,
                trace := st.trace ++
                  [Event.stream (StreamArg.json (Payload.error e)) false,
                   Event.stream StreamArg.nullArg true,
                   Event.logError "llm-auto-openai"] }
  | Delta.other => st

/-- The loop state before the stream is consumed. -/
def initState (query : String) (source : SearchCategory) : LoopState :=
  { hasAnswer := false, fullAnswer := "", rewriteQuery := query,
    toolCallCount := 0, hasError := false, texts := [], images := [],
    source := source, trace := [] }

/-- Consuming the whole model stream. -/
def runLoop (query : String) (source : SearchCategory) (ds : List Delta) : LoopState :=
  ds.foldl step (initState query source)

/-- The stream events produced by the `directlyAnswer` answer callback:
one `answer` payload per chunk. -/
def answerEvents (env : Env) : List Event :=
  env.directChunks.map (fun c => Event.stream (StreamArg.json (Payload.answer c)) false)

/-- The stream events produced by the `getRelatedQuestions` callback:
one `related` payload per chunk. -/
def relatedEvents (env : Env) : List Event :=
  env.relatedChunks.map (fun c => Event.stream (StreamArg.json (Payload.related c)) false)

/-- The result of the `try` body: the event trace, the `saveMessages`
arguments (when the call was reached), whether an early `return` on
error was taken, and whether an exception escaped to the catch block. -/
structure BodyRes where
  trace : List Event
  saved : Option SaveArgs
  early : Bool
  exn : Bool
  deriving Repr

/-- Everything `autoAnswer` does after the stream loop (lines 124-193 of
`auto.ts`): the `Thinking ...` sources flush and query reset when more
than one tool call happened; then, when at least one tool call happened,
the image/video fetch initiation, the answer reset with the `clear`
payload, `directlyAnswer` (with its error channel causing an early
return), `getRelatedQuestions`, the awaited images and videos payloads;
otherwise just `getRelatedQuestions`; finally `incSearchCount`,
`saveMessages` and the `(null, true)` termination call. -/
def afterLoop (env : Env) (inp : Inputs) (query history : String) (st : LoopState) :
    BodyRes :=
  let rw := if st.toolCallCount > 1 then query else st.rewriteQuery
  let tr1 :=
    if st.toolCallCount > 1 then
      st.trace ++
        [Event.stream (StreamArg.json (Payload.sourcesStatus st.texts "Thinking ...")) false]
    else st.trace
  if st.toolCallCount > 0 then
    let fetchedImages := env.imageResults.filter (fun i => i.image.startsWith "https")
    let tr2 := tr1 ++
      [Event.imageFetchStart rw, Event.videoFetchStart rw,
       Event.stream (StreamArg.json (Payload.statusClear "Answering ...")) false,
       Event.directAnswerCall inp.isPro st.source history inp.profile inp.model query st.texts]
      ++ answerEvents env
    let fullAnswer := String.join env.directChunks
    match env.directError with
    | some m =>
        { trace := tr2 ++
            [Event.stream (StreamArg.json (Payload.error m)) false,
             Event.stream StreamArg.nullArg true],
          saved := none, early := true, exn := false }
    | none =>
        if st.hasError then
          { trace := tr2, saved := none, early := true, exn := false }
        else
          let images := st.images ++ fetchedImages
          let videos := env.videoResults.take 8
          let args : SaveArgs :=
            { userId := inp.userId, messages := inp.messages, answer := fullAnswer,
              texts := st.texts, images := images, videos := videos,
              related := String.join env.relatedChunks }
          { trace := tr2 ++
              [Event.stream (StreamArg.json (Payload.status "Generating related questions ...")) false,
               Event.relatedCall query st.texts]
              ++ relatedEvents env ++
              [Event.stream (StreamArg.json (Payload.images images)) false,
               Event.stream (StreamArg.json (Payload.videos videos)) false,
               Event.incSearch inp.userId, Event.save args,
               Event.stream StreamArg.nullArg true],
            saved := some args, early := false, exn := false }
  else
    let args : SaveArgs :=
      { userId := inp.userId, messages := inp.messages, answer := st.fullAnswer,
        texts := st.texts, images := st.images, videos := [],
        related := String.join env.relatedChunks }
    { trace := tr1 ++
        [Event.stream (StreamArg.json (Payload.status "Generating related questions ...")) false,
         Event.relatedCall query st.texts]
        ++ relatedEvents env ++
        [Event.incSearch inp.userId, Event.save args,
         Event.stream StreamArg.nullArg true],
      saved := some args, early := false, exn := false }

/-- The `try` body of `autoAnswer`: reading the last message (which
throws on an empty list), the `streamText` call (which may throw), the
stream loop and everything after it. -/
def bodyRun (env : Env) (inp : Inputs) : BodyRes :=
  match inp.messages.getLast? with
  | none => { trace := [], saved := none, early := false, exn := true }
  | some m =>
      if env.streamTextExn then
        { trace := [], saved := none, early := false, exn := true }
      else
        let cfg := mkConfig env inp m
        let history := env.getHistoryF inp.isPro inp.messages
        let st := runLoop m.content inp.source env.deltas
        let res := afterLoop env inp m.content history st
        { res with trace := Event.streamTextCall cfg :: res.trace }

/-- The observable outcome of one `autoAnswer` invocation. -/
structure AutoOut where
  trace : List Event
  saved : Option SaveArgs
  early : Bool
  caught : Bool
  deriving Repr

/-- Embedding of `autoAnswer`: the `try` body wrapped in the top-level
catch block, which logs the error and invokes `onStream(null, true)`. -/
def autoAnswer (env : Env) (inp : Inputs) : AutoOut :=
  let b := bodyRun env inp
  if b.exn then
    { trace := b.trace ++ [Event.logError "llm-auto-openai",
                           Event.stream StreamArg.nullArg true],
      saved := b.saved, early := b.early, caught := true }
  else
    { trace := b.trace, saved := b.saved, early := b.early, caught := false }

/-- Whether a delta is a `tool-call` event. -/
def isToolCall : Delta → Bool
  | Delta.toolCall => true
  | _ => false

/-- Whether a delta is an `error` event. -/
def isErrorDelta : Delta → Bool
  | Delta.error _ => true
  | _ => false

/-- The number of `tool-call` events in a stream. -/
def numToolCalls (ds : List Delta) : Nat :=
  ds.countP (fun d => isToolCall d)

/-- The concatenation of the non-empty text deltas of a stream: the
answer accumulated by the loop. -/
def textDeltaConcat : List Delta → String
  | [] => ""
  | Delta.textDelta s :: r =>
      if s ≠ "" then s ++ textDeltaConcat r else textDeltaConcat r
  | _ :: r => textDeltaConcat r

/-- Whether an event is a `saveMessages` call. -/
def isSaveEvent : Event → Bool
  | Event.save _ => true
  | _ => false

/-- Whether an event is an image-fetch initiation. -/
def isImageFetchStart : Event → Bool
  | Event.imageFetchStart _ => true
  | _ => false

/-- Whether an event is a video-fetch initiation. -/
def isVideoFetchStart : Event → Bool
  | Event.videoFetchStart _ => true
  | _ => false

/-- Whether an event is a `getRelatedQuestions` call. -/
def isRelatedCall : Event → Bool
  | Event.relatedCall _ _ => true
  | _ => false

/-- Whether an event is a stream-callback invocation. -/
def isStreamEvent : Event → Bool
  | Event.stream _ _ => true
  | _ => false

/-- Whether an event is a stream-callback invocation carrying a
serialized `error` payload. -/
def isErrorPayload : Event → Bool
  | Event.stream (StreamArg.json (Payload.error _)) _ => true
  | _ => false

/-- Whether an event is a `streamText` call. -/
def isStreamTextCall : Event → Bool
  | Event.streamTextCall _ => true
  | _ => false

/-- The well-formedness of one stream-callback invocation: the `null`
first argument goes exactly with the `true` second argument, and a JSON
payload is passed without the termination flag. -/
def streamOk : Event → Bool
  | Event.stream StreamArg.nullArg d => d
  | Event.stream (StreamArg.json _) d => !d
  | _ => true

/-- Events the loop can emit: stream-callback invocations and the error
log of the `error` delta case. -/
def loopEvent (e : Event) : Bool :=
  isStreamEvent e || e == Event.logError "llm-auto-openai"

/-- The loop never removes events: the trace only grows. -/
theorem step_trace_mono (st : LoopState) (d : Delta) (e : Event) (he : e ∈ st.trace) :
    e ∈ (step st d).trace := by
  cases d <;> simp only [step] <;> (repeat' split) <;>
    simp_all [List.mem_append]

/-- Generic invariant: an event of the loop trace was already present or
satisfies any predicate covering every event a single step emits. -/
theorem foldl_step_trace (p : Event → Prop)
    (hp : ∀ st d e, e ∈ (step st d).trace → e ∈ st.trace ∨ p e) :
    ∀ (ds : List Delta) (st : LoopState) (e : Event),
      e ∈ (ds.foldl step st).trace → e ∈ st.trace ∨ p e := by
  intro ds
  induction ds with
  | nil => intro st e he; exact Or.inl he
  | cons d r ih =>
      intro st e he
      rcases ih (step st d) e he with h | h
      · exact hp st d e h
      · exact Or.inr h

/-- Every event a single step emits is a stream-callback invocation or
the loop's error log. -/
theorem step_emits_loopEvent (st : LoopState) (d : Delta) (e : Event)
    (he : e ∈ (step st d).trace) : e ∈ st.trace ∨ loopEvent e = true := by
  cases d <;> simp only [step] at he <;> (repeat' split at he) <;>
    (try simp only [List.mem_append, List.mem_cons, List.mem_singleton,
      List.not_mem_nil, or_false] at he) <;>
    (try casesm* _ ∨ _) <;>
    first
    | (left; assumption)
    | simp_all [loopEvent, isStreamEvent]

/-- Every event a single step emits is a well-formed stream invocation
(or not a stream invocation at all). -/
theorem step_emits_streamOk (st : LoopState) (d : Delta) (e : Event)
    (he : e ∈ (step st d).trace) : e ∈ st.trace ∨ streamOk e = true := by
  cases d <;> simp only [step] at he <;> (repeat' split at he) <;>
    (try simp only [List.mem_append, List.mem_cons, List.mem_singleton,
      List.not_mem_nil, or_false] at he) <;>
    (try casesm* _ ∨ _) <;>
    first
    | (left; assumption)
    | simp_all [streamOk]

/-- A step increments the tool-call counter exactly on `tool-call`
deltas. -/
theorem step_toolCallCount (st : LoopState) (d : Delta) :
    (step st d).toolCallCount = st.toolCallCount + (if isToolCall d then 1 else 0) := by
  cases d <;> simp only [step, isToolCall] <;> (repeat' split) <;> simp_all

/-- After the loop, the tool-call counter counts the `tool-call` deltas
of the stream. -/
theorem foldl_step_toolCallCount :
    ∀ (ds : List Delta) (st : LoopState),
      (ds.foldl step st).toolCallCount = st.toolCallCount + numToolCalls ds := by
  intro ds
  induction ds with
  | nil => intro st; simp [numToolCalls]
  | cons d r ih =>
      intro st
      rw [List.foldl_cons, ih, step_toolCallCount]
      simp only [numToolCalls, List.countP_cons]
      cases hd : isToolCall d <;> simp <;> omega

/-- A step sets the error flag exactly on `error` deltas. -/
theorem step_hasError (st : LoopState) (d : Delta) :
    (step st d).hasError = (st.hasError || isErrorDelta d) := by
  cases d <;> simp only [step, isErrorDelta] <;> (repeat' split) <;> simp_all

/-- After the loop, the error flag holds exactly when the stream
contained an `error` delta. -/
theorem foldl_step_hasError :
    ∀ (ds : List Delta) (st : LoopState),
      (ds.foldl step st).hasError = (st.hasError || ds.any (fun d => isErrorDelta d)) := by
  intro ds
  induction ds with
  | nil => intro st; simp
  | cons d r ih =>
      intro st
      rw [List.foldl_cons, ih, step_hasError]
      simp [Bool.or_assoc]

/-- A step leaves the answer accumulator unchanged except on a non-empty
text delta, which it appends. -/
theorem foldl_step_fullAnswer :
    ∀ (ds : List Delta) (st : LoopState),
      (ds.foldl step st).fullAnswer = st.fullAnswer ++ textDeltaConcat ds := by
  intro ds
  induction ds with
  | nil => intro st; simp [textDeltaConcat]
  | cons d r ih =>
      intro st
      rw [List.foldl_cons, ih]
      cases d with
      | textDelta s =>
          by_cases hs : s = ""
          · subst hs
            simp [step, textDeltaConcat]
          · simp only [step, if_pos (by simpa using hs), textDeltaConcat, if_neg,
              hs, ne_eq, not_false_iff, ite_true]
            split <;> simp [String.append_assoc, hs]
      | toolCall => simp [step, textDeltaConcat]
      | toolResultGetInformation t i q => simp [step, textDeltaConcat]
      | toolResultAccessWebPage t => simp [step, textDeltaConcat]
      | error e => simp [step, textDeltaConcat]
      | other => simp [step, textDeltaConcat]

/-- If the error flag is set after a step, the termination call
`(null, true)` is already in the trace (it is emitted in the `error`
delta case itself). -/
theorem step_hasError_done (st : LoopState) (d : Delta)
    (h : st.hasError = true → Event.stream StreamArg.nullArg true ∈ st.trace)
    (h2 : (step st d).hasError = true) :
    Event.stream StreamArg.nullArg true ∈ (step st d).trace := by
  cases d with
  | error e => simp [step, List.mem_append]
  | textDelta s =>
      have := step_hasError st (Delta.textDelta s)
      simp [isErrorDelta] at this
      rw [this] at h2
      exact step_trace_mono st _ _ (h h2)
  | toolCall =>
      have := step_hasError st Delta.toolCall
      simp [isErrorDelta] at this
      rw [this] at h2
      exact step_trace_mono st _ _ (h h2)
  | toolResultGetInformation t i q =>
      have := step_hasError st (Delta.toolResultGetInformation t i q)
      simp [isErrorDelta] at this
      rw [this] at h2
      exact step_trace_mono st _ _ (h h2)
  | toolResultAccessWebPage t =>
      have := step_hasError st (Delta.toolResultAccessWebPage t)
      simp [isErrorDelta] at this
      rw [this] at h2
      exact step_trace_mono st _ _ (h h2)
  | other =>
      have := step_hasError st Delta.other
      simp [isErrorDelta] at this
      rw [this] at h2
      exact step_trace_mono st _ _ (h h2)

/-- If the error flag is set after the loop, the termination call
`(null, true)` is in the loop trace. -/
theorem foldl_step_hasError_done :
    ∀ (ds : List Delta) (st : LoopState),
      (st.hasError = true → Event.stream StreamArg.nullArg true ∈ st.trace) →
      (ds.foldl step st).hasError = true →
      Event.stream StreamArg.nullArg true ∈ (ds.foldl step st).trace := by
  intro ds
  induction ds with
  | nil => intro st h h2; exact h h2
  | cons d r ih =>
      intro st h h2
      exact ih (step st d) (fun he => step_hasError_done st d h he) h2

/-- After the whole stream, the tool-call counter counts the
`tool-call` deltas. -/
theorem runLoop_toolCallCount (q : String) (src : SearchCategory) (ds : List Delta) :
    (runLoop q src ds).toolCallCount = numToolCalls ds := by
  simp [runLoop, foldl_step_toolCallCount, initState]

/-- After the whole stream, the error flag holds exactly when an
`error` delta occurred. -/
theorem runLoop_hasError (q : String) (src : SearchCategory) (ds : List Delta) :
    (runLoop q src ds).hasError = ds.any (fun d => isErrorDelta d) := by
  simp [runLoop, foldl_step_hasError, initState]

/-- After the whole stream, the accumulated answer is the concatenation
of the non-empty text deltas. -/
theorem runLoop_fullAnswer (q : String) (src : SearchCategory) (ds : List Delta) :
    (runLoop q src ds).fullAnswer = textDeltaConcat ds := by
  have h := foldl_step_fullAnswer ds (initState q src)
  simpa [runLoop, initState] using h

/-- Every event of the loop trace is a stream invocation or the error
log. -/
theorem runLoop_loopEvent (q : String) (src : SearchCategory) (ds : List Delta)
    (e : Event) (he : e ∈ (runLoop q src ds).trace) : loopEvent e = true := by
  rcases foldl_step_trace (fun e => loopEvent e = true) step_emits_loopEvent ds
      (initState q src) e he with h | h
  · simp [initState] at h
  · exact h

/-- Every stream invocation of the loop trace is well-formed. -/
theorem runLoop_streamOk (q : String) (src : SearchCategory) (ds : List Delta)
    (e : Event) (he : e ∈ (runLoop q src ds).trace) : streamOk e = true := by
  rcases foldl_step_trace (fun e => streamOk e = true) step_emits_streamOk ds
      (initState q src) e he with h | h
  · simp [initState] at h
  · exact h

/-- If an `error` delta occurred, the loop trace already holds the
`(null, true)` termination call. -/
theorem runLoop_hasError_done (q : String) (src : SearchCategory) (ds : List Delta)
    (h : (runLoop q src ds).hasError = true) :
    Event.stream StreamArg.nullArg true ∈ (runLoop q src ds).trace := by
  refine foldl_step_hasError_done ds (initState q src) ?_ h
  intro hh
  simp [initState] at hh

/-- The post-loop phase always leaves a `(null, true)` termination call
in the trace, provided the loop trace already holds one whenever the
error flag is set. -/
theorem afterLoop_done (env : Env) (inp : Inputs) (q h : String) (st : LoopState)
    (hs : st.hasError = true → Event.stream StreamArg.nullArg true ∈ st.trace) :
    Event.stream StreamArg.nullArg true ∈ (afterLoop env inp q h st).trace := by
  unfold afterLoop
  by_cases h1 : st.toolCallCount > 0
  · simp only [h1, if_true]
    cases hde : env.directError with
    | some m => simp [List.mem_append]
    | none =>
        by_cases h2 : st.hasError
        · have hd := hs h2
          by_cases h3 : st.toolCallCount > 1 <;>
            simp [h2, h3, List.mem_append, hd]
        · simp [h2, List.mem_append]
  · simp [h1, List.mem_append]

/-- When the body runs to the end without an exception, its trace holds
a `(null, true)` termination call. -/
theorem bodyRun_done (env : Env) (inp : Inputs)
    (hexn : (bodyRun env inp).exn = false) :
    Event.stream StreamArg.nullArg true ∈ (bodyRun env inp).trace := by
  unfold bodyRun at *
  cases hm : inp.messages.getLast? with
  | none => simp [hm] at hexn
  | some m =>
      by_cases hstx : env.streamTextExn
      · simp [hm, hstx] at hexn
      · simp only [hm, hstx, if_false, Bool.false_eq_true, if_neg, not_false_iff]
        refine List.mem_cons_of_mem _ ?_
        refine afterLoop_done env inp m.content _ _ ?_
        intro he
        exact runLoop_hasError_done m.content inp.source env.deltas he

/-- C10: `autoAnswer` never throws to its caller (it is a total function
of its environment), and on every execution path — normal completion,
early error return, stream `error` event, or an exception reaching the
top-level catch (e.g. from an empty messages list) — the stream callback
is invoked with `(null, true)` at least once. -/
theorem autoAnswer_always_terminates_stream (env : Env) (inp : Inputs) :
    Event.stream StreamArg.nullArg true ∈ (autoAnswer env inp).trace := by
  unfold autoAnswer
  by_cases hexn : (bodyRun env inp).exn
  · simp [hexn, List.mem_append]
  · have := bodyRun_done env inp (by simpa using hexn)
    simp [hexn, List.mem_append, this]

/-- Every event the post-loop phase appends is a well-formed stream
invocation or not a stream invocation at all. -/
theorem afterLoop_streamOk (env : Env) (inp : Inputs) (q h : String) (st : LoopState)
    (hs : ∀ e ∈ st.trace, streamOk e = true) :
    ∀ e ∈ (afterLoop env inp q h st).trace, streamOk e = true := by
  intro e he
  unfold afterLoop at he
  repeat' split at he
  all_goals
    simp only [List.mem_append, List.mem_cons, List.mem_singleton, List.not_mem_nil,
      or_false, answerEvents, relatedEvents, List.mem_map] at he
  all_goals
    (try casesm* _ ∨ _, Exists _, _ ∧ _) <;> subst_vars <;>
    first
      | exact hs _ ‹_›
      | simp_all [streamOk]
      | rfl

/-- Every event of the body trace is a well-formed stream invocation or
not a stream invocation at all. -/
theorem bodyRun_streamOk (env : Env) (inp : Inputs) :
    ∀ e ∈ (bodyRun env inp).trace, streamOk e = true := by
  intro e he
  unfold bodyRun at he
  cases hm : inp.messages.getLast? with
  | none => simp [hm] at he
  | some m =>
      rw [hm] at he
      by_cases hstx : env.streamTextExn
      · simp [hstx] at he
      · simp only [hstx, Bool.false_eq_true, if_neg, not_false_iff,
          List.mem_cons] at he
        rcases he with he | he
        · subst he; rfl
        · exact afterLoop_streamOk env inp m.content _ _
            (fun e he => runLoop_streamOk m.content inp.source env.deltas e he) e he

/-- C7: every stream-callback invocation `autoAnswer` makes passes as
first argument either a serialized JSON object of one of the shapes
`status`, `answer`, `error`, `related`, `sources`/`status`,
`status`/`clear`, `images`, `videos` (by the type of `StreamArg`), or
`null`; the first argument is `null` exactly when the second argument is
`true`, the termination signal. -/
theorem autoAnswer_stream_payloads_wellformed (env : Env) (inp : Inputs) :
    ∀ e ∈ (autoAnswer env inp).trace, streamOk e = true := by
  intro e he
  unfold autoAnswer at he
  by_cases hexn : (bodyRun env inp).exn
  · simp only [hexn, if_true, List.mem_append, List.mem_cons, List.mem_singleton,
      List.not_mem_nil, or_false] at he
    rcases he with he | he | he
    · exact bodyRun_streamOk env inp e he
    · subst he; rfl
    · subst he; rfl
  · simp only [hexn, if_false] at he
    exact bodyRun_streamOk env inp e (by simpa using he)

/-- The `saveMessages` arguments on the tool-call path: the answer comes
from `directlyAnswer`, the images are the loop images extended with the
filtered fetched images, the videos are the first 8 video results. -/
def toolSaveArgs (env : Env) (inp : Inputs) (st : LoopState) : SaveArgs :=
  { userId := inp.userId, messages := inp.messages,
    answer := String.join env.directChunks, texts := st.texts,
    images := st.images ++ env.imageResults.filter (fun i => i.image.startsWith "https"),
    videos := env.videoResults.take 8,
    related := String.join env.relatedChunks }

/-- The `saveMessages` arguments on the no-tool-call path: the answer is
the streamed text-delta accumulation, no videos are fetched. -/
def noToolSaveArgs (env : Env) (inp : Inputs) (st : LoopState) : SaveArgs :=
  { userId := inp.userId, messages := inp.messages,
    answer := st.fullAnswer, texts := st.texts,
    images := st.images, videos := [],
    related := String.join env.relatedChunks }

/-- The trace prefix of the tool-call path up to and including the
`directlyAnswer` chunks. -/
def toolPreTrace (env : Env) (inp : Inputs) (q h : String) (st : LoopState) : List Event :=
  (if st.toolCallCount > 1 then
      st.trace ++
        [Event.stream (StreamArg.json (Payload.sourcesStatus st.texts "Thinking ...")) false]
    else st.trace) ++
  [Event.imageFetchStart (if st.toolCallCount > 1 then q else st.rewriteQuery),
   Event.videoFetchStart (if st.toolCallCount > 1 then q else st.rewriteQuery),
   Event.stream (StreamArg.json (Payload.statusClear "Answering ...")) false,
   Event.directAnswerCall inp.isPro st.source h inp.profile inp.model q st.texts]
  ++ answerEvents env

/-- Explicit shape of the post-loop phase when no tool call occurred. -/
theorem afterLoop_notool (env : Env) (inp : Inputs) (q h : String) (st : LoopState)
    (h1 : st.toolCallCount = 0) :
    afterLoop env inp q h st =
      { trace := st.trace ++
          [Event.stream (StreamArg.json (Payload.status "Generating related questions ...")) false,
           Event.relatedCall q st.texts]
          ++ relatedEvents env ++
          [Event.incSearch inp.userId,
           Event.save (noToolSaveArgs env inp st),
           Event.stream StreamArg.nullArg true],
        saved := some (noToolSaveArgs env inp st),
        early := false, exn := false } := by
  unfold afterLoop
  simp [h1, noToolSaveArgs]

/-- Explicit shape of the post-loop phase when at least one tool call
occurred and neither the stream nor `directlyAnswer` reported an
error. -/
theorem afterLoop_tool_ok (env : Env) (inp : Inputs) (q h : String) (st : LoopState)
    (h1 : 0 < st.toolCallCount) (h2 : env.directError = none)
    (h3 : st.hasError = false) :
    afterLoop env inp q h st =
      { trace := toolPreTrace env inp q h st ++
          [Event.stream (StreamArg.json (Payload.status "Generating related questions ...")) false,
           Event.relatedCall q st.texts]
          ++ relatedEvents env ++
          [Event.stream (StreamArg.json (Payload.images
              (st.images ++ env.imageResults.filter (fun i => i.image.startsWith "https")))) false,
           Event.stream (StreamArg.json (Payload.videos (env.videoResults.take 8))) false,
           Event.incSearch inp.userId,
           Event.save (toolSaveArgs env inp st),
           Event.stream StreamArg.nullArg true],
        saved := some (toolSaveArgs env inp st),
        early := false, exn := false } := by
  unfold afterLoop
  simp [h1, h2, h3, toolSaveArgs, toolPreTrace]

/-- Explicit shape of the post-loop phase when at least one tool call
occurred and `directlyAnswer` reported an error: the error payload and
the termination call are streamed and the function returns early with no
save. -/
theorem afterLoop_directError (env : Env) (inp : Inputs) (q h : String) (st : LoopState)
    (m : String) (h1 : 0 < st.toolCallCount) (h2 : env.directError = some m) :
    afterLoop env inp q h st =
      { trace := toolPreTrace env inp q h st ++
          [Event.stream (StreamArg.json (Payload.error m)) false,
           Event.stream StreamArg.nullArg true],
        saved := none, early := true, exn := false } := by
  unfold afterLoop
  simp [h1, h2, toolPreTrace]

/-- Explicit shape of the post-loop phase when at least one tool call
occurred, `directlyAnswer` reported no error, but the stream had an
`error` delta: the function returns early after `directlyAnswer`, with
no save. -/
theorem afterLoop_streamError (env : Env) (inp : Inputs) (q h : String) (st : LoopState)
    (h1 : 0 < st.toolCallCount) (h2 : env.directError = none)
    (h3 : st.hasError = true) :
    afterLoop env inp q h st =
      { trace := toolPreTrace env inp q h st,
        saved := none, early := true, exn := false } := by
  unfold afterLoop
  simp [h1, h2, h3, toolPreTrace]

/-- Explicit shape of the body on the non-throwing entry path: the
`streamText` call with the built configuration, then the loop, then the
post-loop phase. -/
theorem bodyRun_some (env : Env) (inp : Inputs) (m : StoreMessage)
    (hm : inp.messages.getLast? = some m) (hstx : env.streamTextExn = false) :
    bodyRun env inp =
      { afterLoop env inp m.content (env.getHistoryF inp.isPro inp.messages)
          (runLoop m.content inp.source env.deltas) with
        trace := Event.streamTextCall (mkConfig env inp m) ::
          (afterLoop env inp m.content (env.getHistoryF inp.isPro inp.messages)
            (runLoop m.content inp.source env.deltas)).trace } := by
  unfold bodyRun
  rw [hm]
  simp [hstx]

/-- The catch block is skipped exactly when the body raises no
exception, and then the outcome is the body's outcome. -/
theorem autoAnswer_no_catch (env : Env) (inp : Inputs)
    (hexn : (bodyRun env inp).exn = false) :
    autoAnswer env inp =
      { trace := (bodyRun env inp).trace, saved := (bodyRun env inp).saved,
        early := (bodyRun env inp).early, caught := false } := by
  unfold autoAnswer
  simp [hexn]

/-- A sublist of the right part is a sublist of the whole append. -/
theorem sublist_skip {α : Type} (l : List α) {l₁ l₂ : List α} (h : l₁.Sublist l₂) :
    l₁.Sublist (l ++ l₂) :=
  h.trans (List.sublist_append_right l l₂)

/-- A sublist of the left part is a sublist of the whole append. -/
theorem sublist_take {α : Type} (l : List α) {l₁ l₂ : List α} (h : l₁.Sublist l₂) :
    l₁.Sublist (l₂ ++ l) :=
  h.trans (List.sublist_append_left l₂ l)

/-- If the catch block did not run, the body raised no exception. -/
theorem no_catch_shape (env : Env) (inp : Inputs)
    (hc : (autoAnswer env inp).caught = false) :
    (bodyRun env inp).exn = false := by
  unfold autoAnswer at hc
  by_cases hx : (bodyRun env inp).exn
  · simp [hx] at hc
  · simpa using hx

/-- If the body raised no exception, the messages list was non-empty and
the `streamText` call did not throw. -/
theorem exn_false_shape (env : Env) (inp : Inputs)
    (hexn : (bodyRun env inp).exn = false) :
    ∃ m, inp.messages.getLast? = some m ∧ env.streamTextExn = false := by
  unfold bodyRun at hexn
  cases hm : inp.messages.getLast? with
  | none => rw [hm] at hexn; simp at hexn
  | some m =>
      rw [hm] at hexn
      by_cases hstx : env.streamTextExn
      · simp [hstx] at hexn
      · exact ⟨m, rfl, by simpa using hstx⟩

/-- A predicate refuted by every loop event counts zero loop-trace
occurrences. -/
theorem runLoop_countP_zero (p : Event → Bool)
    (hp : ∀ e, loopEvent e = true → p e = false)
    (q : String) (src : SearchCategory) (ds : List Delta) :
    ((runLoop q src ds).trace.countP p) = 0 := by
  rw [List.countP_eq_zero]
  intro e he
  simp [hp e (runLoop_loopEvent q src ds e he)]

/-- No loop event is a save event. -/
theorem loopEvent_not_save (e : Event) (h : loopEvent e = true) :
    isSaveEvent e = false := by
  cases e <;> simp_all [loopEvent, isStreamEvent, isSaveEvent]

/-- No loop event is an image-fetch initiation. -/
theorem loopEvent_not_fetch (e : Event) (h : loopEvent e = true) :
    isImageFetchStart e = false := by
  cases e <;> simp_all [loopEvent, isStreamEvent, isImageFetchStart]

/-- No loop event is a video-fetch initiation. -/
theorem loopEvent_not_vidfetch (e : Event) (h : loopEvent e = true) :
    isVideoFetchStart e = false := by
  cases e <;> simp_all [loopEvent, isStreamEvent, isVideoFetchStart]

/-- No loop event is a related-questions call. -/
theorem loopEvent_not_related (e : Event) (h : loopEvent e = true) :
    isRelatedCall e = false := by
  cases e <;> simp_all [loopEvent, isStreamEvent, isRelatedCall]

/-- No loop event is a `streamText` call. -/
theorem loopEvent_not_stc (e : Event) (h : loopEvent e = true) :
    isStreamTextCall e = false := by
  cases e <;> simp_all [loopEvent, isStreamEvent, isStreamTextCall]

/-- C1 (amended): on every invocation that completes without entering
the top-level catch block and without the early error return, the final
transcript is persisted exactly once by `saveMessages` — with the
accumulated answer (from `directlyAnswer` when a tool call occurred,
from the streamed text deltas otherwise), the accumulated text sources,
images, videos and related questions — and afterwards the stream
callback is invoked with `(null, true)`. -/
theorem autoAnswer_save_once_on_normal_completion (env : Env) (inp : Inputs)
    (hc : (autoAnswer env inp).caught = false)
    (he : (autoAnswer env inp).early = false) :
    ∃ args, (autoAnswer env inp).saved = some args ∧
      (autoAnswer env inp).trace.countP (fun e => isSaveEvent e) = 1 ∧
      List.Sublist [Event.save args, Event.stream StreamArg.nullArg true]
        (autoAnswer env inp).trace ∧
      (0 < numToolCalls env.deltas →
        args.answer = String.join env.directChunks ∧
        args.videos = env.videoResults.take 8) ∧
      (numToolCalls env.deltas = 0 →
        args.answer = textDeltaConcat env.deltas ∧ args.videos = []) ∧
      args.userId = inp.userId ∧ args.messages = inp.messages ∧
      args.related = String.join env.relatedChunks := by
  have hexn := no_catch_shape env inp hc
  obtain ⟨m, hm, hstx⟩ := exn_false_shape env inp hexn
  rw [autoAnswer_no_catch env inp hexn] at he ⊢
  simp only at he ⊢
  rw [bodyRun_some env inp m hm hstx] at he ⊢
  set st := runLoop m.content inp.source env.deltas with hstdef
  have htcc : st.toolCallCount = numToolCalls env.deltas := by
    rw [hstdef, runLoop_toolCallCount]
  have hsave0 : st.trace.countP (fun e => isSaveEvent e) = 0 := by
    rw [hstdef]
    exact runLoop_countP_zero _ loopEvent_not_save m.content inp.source env.deltas
  by_cases h1 : 0 < st.toolCallCount
  · cases hde : env.directError with
    | some msg =>
        rw [afterLoop_directError env inp m.content
          (env.getHistoryF inp.isPro inp.messages) st msg h1 hde] at he
        simp at he
    | none =>
        by_cases h3 : st.hasError
        · rw [afterLoop_streamError env inp m.content
            (env.getHistoryF inp.isPro inp.messages) st h1 hde h3] at he
          simp at he
        · rw [afterLoop_tool_ok env inp m.content
            (env.getHistoryF inp.isPro inp.messages) st h1 hde
            (by simpa using h3)]
          refine ⟨toolSaveArgs env inp st, rfl, ?_, ?_, ?_, ?_, rfl, rfl, rfl⟩
          · simp only [isSaveEvent] at hsave0
            by_cases h2 : st.toolCallCount > 1 <;>
              simp [toolPreTrace, answerEvents, relatedEvents, List.countP_cons,
                List.countP_append, List.countP_map, Function.comp_def, isSaveEvent,
                hsave0, h2]
          · refine List.Sublist.cons _ (sublist_skip _ ?_)
            exact List.Sublist.cons _ (List.Sublist.cons _
              (List.Sublist.cons _ (List.Sublist.refl _)))
          · intro _
            exact ⟨rfl, rfl⟩
          · intro h0
            rw [htcc, h0] at h1
            omega
  · have h0 : st.toolCallCount = 0 := by omega
    rw [afterLoop_notool env inp m.content
      (env.getHistoryF inp.isPro inp.messages) st h0]
    refine ⟨noToolSaveArgs env inp st, rfl, ?_, ?_, ?_, ?_, rfl, rfl, rfl⟩
    · simp only [isSaveEvent] at hsave0
      simp [relatedEvents, List.countP_cons, List.countP_append, List.countP_map,
        Function.comp_def, isSaveEvent, hsave0]
    · refine List.Sublist.cons _ (sublist_skip _ ?_)
      exact List.Sublist.cons _ (List.Sublist.refl _)
    · intro hpos
      rw [htcc] at h0
      omega
    · intro _
      refine ⟨?_, rfl⟩
      rw [hstdef]
      exact runLoop_fullAnswer m.content inp.source env.deltas

/-- A base environment with empty collaborator results and trivial
opaque helpers. -/
def envBase : Env :=
  { deltas := [], streamTextExn := false, directChunks := [], directError := none,
    relatedChunks := [], imageResults := [], videoResults := [],
    extractAllImageUrls := fun _ => [], replaceImageUrl := fun s _ => s,
    getHistoryF := fun _ _ => "", formatPrompt := fun _ h => h,
    getMaxOutputToken := fun _ => 1024 }

/-- A single stored user message. -/
def msg1 : StoreMessage := { role := "user", content := "hello", attachments := none }

/-- Inputs with a one-message conversation. -/
def inp1 : Inputs :=
  { messages := [msg1], isPro := false, userId := "u1", profile := none,
    model := "gpt-4o-mini", source := SearchCategory.all }

/-- Inputs with an empty conversation (reading the last message
throws). -/
def inpEmpty : Inputs := { inp1 with messages := [] }

/-- Environment whose model stream makes one tool call and whose
`directlyAnswer` run reports an error. -/
def envDirectErr : Env :=
  { envBase with
    deltas := [Delta.toolCall, Delta.toolResultGetInformation [] [] "q2"],
    directError := some "boom" }

/-- Environment whose model stream reports an `error` event and makes no
tool call. -/
def envStreamErr : Env := { envBase with deltas := [Delta.error "boom"] }

/-- C1 counterexample: a run that completes without entering the
top-level catch block (no exception is raised) but — because
`directlyAnswer` reported an error and the function returned early —
never calls `saveMessages`, refuting the claim that every
non-catch completion persists the transcript. -/
theorem autoAnswer_save_skipped_despite_no_catch :
    (autoAnswer envDirectErr inp1).caught = false ∧
    (autoAnswer envDirectErr inp1).trace.countP (fun e => isSaveEvent e) = 0 := by
  decide

/-- C1 witness: a concrete run satisfying the hypotheses of
`autoAnswer_save_once_on_normal_completion`. -/
theorem autoAnswer_save_once_witness :
    (autoAnswer envBase inp1).caught = false ∧
    (autoAnswer envBase inp1).early = false ∧
    ∃ args, (autoAnswer envBase inp1).saved = some args ∧
      (autoAnswer envBase inp1).trace.countP (fun e => isSaveEvent e) = 1 ∧
      List.Sublist [Event.save args, Event.stream StreamArg.nullArg true]
        (autoAnswer envBase inp1).trace ∧
      (0 < numToolCalls envBase.deltas →
        args.answer = String.join envBase.directChunks ∧
        args.videos = envBase.videoResults.take 8) ∧
      (numToolCalls envBase.deltas = 0 →
        args.answer = textDeltaConcat envBase.deltas ∧ args.videos = []) ∧
      args.userId = inp1.userId ∧ args.messages = inp1.messages ∧
      args.related = String.join envBase.relatedChunks :=
  ⟨by decide, by decide,
    autoAnswer_save_once_on_normal_completion envBase inp1 (by decide) (by decide)⟩

/-- C3 (amended): whenever the top-level catch block runs, it logs the
error and invokes the stream callback with `(null, true)` — and nothing
else: the catch block itself forwards no JSON error payload (error
payloads are emitted only for stream `error` events and
`directlyAnswer` errors, before the catch). -/
theorem autoAnswer_catch_logs_and_terminates (env : Env) (inp : Inputs)
    (h : (autoAnswer env inp).caught = true) :
    (autoAnswer env inp).trace =
      (bodyRun env inp).trace ++
        [Event.logError "llm-auto-openai", Event.stream StreamArg.nullArg true] := by
  unfold autoAnswer at *
  by_cases hexn : (bodyRun env inp).exn
  · simp [hexn]
  · simp [hexn] at h

/-- C3 counterexample: with an empty messages list the body throws
before any callback invocation, the catch block runs, and the whole
trace contains no JSON error payload — refuting the claim that the
top-level catch forwards the error to the callback as a JSON error
payload. -/
theorem autoAnswer_catch_emits_no_error_payload :
    (autoAnswer envBase inpEmpty).caught = true ∧
    (autoAnswer envBase inpEmpty).trace.countP (fun e => isErrorPayload e) = 0 := by
  decide

/-- C3 witness: concrete run entering the catch block. -/
theorem autoAnswer_catch_witness :
    (autoAnswer envBase inpEmpty).caught = true ∧
    (autoAnswer envBase inpEmpty).trace =
      (bodyRun envBase inpEmpty).trace ++
        [Event.logError "llm-auto-openai", Event.stream StreamArg.nullArg true] :=
  ⟨by decide, autoAnswer_catch_logs_and_terminates envBase inpEmpty (by decide)⟩

/-- C4 (amended): the early error return happens only on the tool-call
path. When at least one tool call occurred and either the stream
reported an `error` event or `directlyAnswer` reported an error, the
function returns early and `saveMessages` is not called. When no tool
call occurred, even a stream `error` event does not stop the function:
it still proceeds to `saveMessages`. -/
theorem autoAnswer_error_return_behavior (env : Env) (inp : Inputs)
    (hc : (autoAnswer env inp).caught = false) :
    (0 < numToolCalls env.deltas →
      (env.deltas.any (fun d => isErrorDelta d) = true ∨ env.directError.isSome = true) →
      (autoAnswer env inp).early = true ∧ (autoAnswer env inp).saved = none) ∧
    (numToolCalls env.deltas = 0 → (autoAnswer env inp).saved.isSome = true) := by
  have hexn := no_catch_shape env inp hc
  obtain ⟨m, hm, hstx⟩ := exn_false_shape env inp hexn
  rw [autoAnswer_no_catch env inp hexn]
  simp only
  rw [bodyRun_some env inp m hm hstx]
  set st := runLoop m.content inp.source env.deltas with hstdef
  have htcc : st.toolCallCount = numToolCalls env.deltas := by
    rw [hstdef, runLoop_toolCallCount]
  have herr : st.hasError = env.deltas.any (fun d => isErrorDelta d) := by
    rw [hstdef, runLoop_hasError]
  constructor
  · intro hpos hner
    have h1 : 0 < st.toolCallCount := by rw [htcc]; exact hpos
    cases hde : env.directError with
    | some msg =>
        rw [afterLoop_directError env inp m.content
          (env.getHistoryF inp.isPro inp.messages) st msg h1 hde]
        exact ⟨rfl, rfl⟩
    | none =>
        rcases hner with hner | hner
        · have h3 : st.hasError = true := by rw [herr]; exact hner
          rw [afterLoop_streamError env inp m.content
            (env.getHistoryF inp.isPro inp.messages) st h1 hde h3]
          exact ⟨rfl, rfl⟩
        · rw [hde] at hner
          simp at hner
  · intro h0
    have h0' : st.toolCallCount = 0 := by rw [htcc]; exact h0
    rw [afterLoop_notool env inp m.content
      (env.getHistoryF inp.isPro inp.messages) st h0']
    rfl

/-- C4 counterexample: a stream `error` event with no tool call — the
function does not return early and `saveMessages` is still called,
refuting the claim that every error makes `autoAnswer` return early
without persisting. -/
theorem autoAnswer_saves_despite_stream_error :
    envStreamErr.deltas.any (fun d => isErrorDelta d) = true ∧
    (autoAnswer envStreamErr inp1).early = false ∧
    (autoAnswer envStreamErr inp1).trace.countP (fun e => isSaveEvent e) = 1 := by
  decide

/-- C4 witness: concrete runs discharging both branches of the amended
statement. -/
theorem autoAnswer_error_return_witness :
    (autoAnswer envDirectErr inp1).caught = false ∧
    ((0 < numToolCalls envDirectErr.deltas →
      (envDirectErr.deltas.any (fun d => isErrorDelta d) = true ∨
        envDirectErr.directError.isSome = true) →
      (autoAnswer envDirectErr inp1).early = true ∧
      (autoAnswer envDirectErr inp1).saved = none) ∧
    (numToolCalls envDirectErr.deltas = 0 →
      (autoAnswer envDirectErr inp1).saved.isSome = true)) :=
  ⟨by decide, autoAnswer_error_return_behavior envDirectErr inp1 (by decide)⟩

/-- C2 (amended): on the tool-call path with no errors, the image and
video fetches are initiated (in that order) right after the stream is
consumed and before the related-questions call; their results are
streamed only after the related questions, and everything precedes the
save; the fetch initiation and the related call each happen exactly
once. When no tool call occurred, no image or video fetch happens at
all. -/
theorem autoAnswer_fetch_related_order (env : Env) (inp : Inputs)
    (hc : (autoAnswer env inp).caught = false) :
    (0 < numToolCalls env.deltas →
      env.deltas.any (fun d => isErrorDelta d) = false →
      env.directError = none →
      ∃ r q ts imgs vids args,
        List.Sublist
          [Event.imageFetchStart r, Event.videoFetchStart r,
           Event.relatedCall q ts,
           Event.stream (StreamArg.json (Payload.images imgs)) false,
           Event.stream (StreamArg.json (Payload.videos vids)) false,
           Event.save args]
          (autoAnswer env inp).trace ∧
        (autoAnswer env inp).trace.countP (fun e => isImageFetchStart e) = 1 ∧
        (autoAnswer env inp).trace.countP (fun e => isRelatedCall e) = 1 ∧
        args.images = imgs ∧ args.videos = vids) ∧
    (numToolCalls env.deltas = 0 →
      (autoAnswer env inp).trace.countP (fun e => isImageFetchStart e) = 0 ∧
      (autoAnswer env inp).trace.countP (fun e => isVideoFetchStart e) = 0) := by
  have hexn := no_catch_shape env inp hc
  obtain ⟨m, hm, hstx⟩ := exn_false_shape env inp hexn
  rw [autoAnswer_no_catch env inp hexn]
  simp only
  rw [bodyRun_some env inp m hm hstx]
  set st := runLoop m.content inp.source env.deltas with hstdef
  have hfetch0 : st.trace.countP (fun e => isImageFetchStart e) = 0 := by
    rw [hstdef]
    exact runLoop_countP_zero _ loopEvent_not_fetch m.content inp.source env.deltas
  have hvfetch0 : st.trace.countP (fun e => isVideoFetchStart e) = 0 := by
    rw [hstdef]
    exact runLoop_countP_zero _ loopEvent_not_vidfetch m.content inp.source env.deltas
  constructor
  · intro hpos hne hde
    have h1 : 0 < st.toolCallCount := by
      rw [hstdef, runLoop_toolCallCount]; exact hpos
    have h3 : st.hasError = false := by
      rw [hstdef, runLoop_hasError]; simpa using hne
    have hrel0 : st.trace.countP (fun e => isRelatedCall e) = 0 := by
      rw [hstdef]
      exact runLoop_countP_zero _ loopEvent_not_related m.content inp.source env.deltas
    rw [afterLoop_tool_ok env inp m.content
      (env.getHistoryF inp.isPro inp.messages) st h1 hde h3]
    refine ⟨if st.toolCallCount > 1 then m.content else st.rewriteQuery,
      m.content, st.texts,
      st.images ++ env.imageResults.filter (fun i => i.image.startsWith "https"),
      env.videoResults.take 8, toolSaveArgs env inp st, ?_, ?_, ?_, rfl, rfl⟩
    · refine List.Sublist.cons _ ?_
      have s1 : List.Sublist
          [Event.imageFetchStart (if st.toolCallCount > 1 then m.content else st.rewriteQuery),
           Event.videoFetchStart (if st.toolCallCount > 1 then m.content else st.rewriteQuery)]
          ((if st.toolCallCount > 1 then
              st.trace ++
                [Event.stream (StreamArg.json (Payload.sourcesStatus st.texts "Thinking ...")) false]
            else st.trace) ++
            [Event.imageFetchStart (if st.toolCallCount > 1 then m.content else st.rewriteQuery),
             Event.videoFetchStart (if st.toolCallCount > 1 then m.content else st.rewriteQuery),
             Event.stream (StreamArg.json (Payload.statusClear "Answering ...")) false,
             Event.directAnswerCall inp.isPro st.source (env.getHistoryF inp.isPro inp.messages)
               inp.profile inp.model m.content st.texts]) :=
        sublist_skip _ (List.Sublist.cons₂ _ (List.Sublist.cons₂ _ (List.nil_sublist _)))
      have s2 : List.Sublist
          [Event.imageFetchStart (if st.toolCallCount > 1 then m.content else st.rewriteQuery),
           Event.videoFetchStart (if st.toolCallCount > 1 then m.content else st.rewriteQuery)]
          (toolPreTrace env inp m.content (env.getHistoryF inp.isPro inp.messages) st) := by
        unfold toolPreTrace
        exact sublist_take _ s1
      have s3 : List.Sublist [Event.relatedCall m.content st.texts]
          [Event.stream (StreamArg.json (Payload.status "Generating related questions ...")) false,
           Event.relatedCall m.content st.texts] :=
        List.Sublist.cons _ (List.Sublist.refl _)
      have s5 := sublist_take (relatedEvents env) (List.Sublist.append s2 s3)
      have s6 : List.Sublist
          [Event.stream (StreamArg.json (Payload.images
              (st.images ++ env.imageResults.filter (fun i => i.image.startsWith "https")))) false,
           Event.stream (StreamArg.json (Payload.videos (env.videoResults.take 8))) false,
           Event.save (toolSaveArgs env inp st)]
          [Event.stream (StreamArg.json (Payload.images
              (st.images ++ env.imageResults.filter (fun i => i.image.startsWith "https")))) false,
           Event.stream (StreamArg.json (Payload.videos (env.videoResults.take 8))) false,
           Event.incSearch inp.userId, Event.save (toolSaveArgs env inp st),
           Event.stream StreamArg.nullArg true] :=
        List.Sublist.cons₂ _ (List.Sublist.cons₂ _ (List.Sublist.cons _
          (List.Sublist.cons₂ _ (List.nil_sublist _))))
      exact List.Sublist.append s5 s6
    · simp only [isImageFetchStart] at hfetch0
      by_cases h2 : st.toolCallCount > 1 <;>
        simp [toolPreTrace, answerEvents, relatedEvents, List.countP_cons,
          List.countP_append, List.countP_map, Function.comp_def, isImageFetchStart,
          hfetch0, h2]
    · simp only [isRelatedCall] at hrel0
      by_cases h2 : st.toolCallCount > 1 <;>
        simp [toolPreTrace, answerEvents, relatedEvents, List.countP_cons,
          List.countP_append, List.countP_map, Function.comp_def, isRelatedCall,
          hrel0, h2]
  · intro h0
    have h0' : st.toolCallCount = 0 := by
      rw [hstdef, runLoop_toolCallCount]; exact h0
    rw [afterLoop_notool env inp m.content
      (env.getHistoryF inp.isPro inp.messages) st h0']
    constructor
    · simp only [isImageFetchStart] at hfetch0
      simp [relatedEvents, List.countP_cons, List.countP_append, List.countP_map,
        Function.comp_def, isImageFetchStart, hfetch0]
    · simp only [isVideoFetchStart] at hvfetch0
      simp [relatedEvents, List.countP_cons, List.countP_append, List.countP_map,
        Function.comp_def, isVideoFetchStart, hvfetch0]

/-- C2 counterexample: an invocation with no tool call completes
normally and persists the transcript, yet never initiates any
image/video fetch and streams no images or videos — refuting the claim
that every invocation fetches images and videos before persisting. -/
theorem autoAnswer_no_fetch_without_tool_call :
    (autoAnswer envBase inp1).caught = false ∧
    (autoAnswer envBase inp1).trace.countP (fun e => isSaveEvent e) = 1 ∧
    (autoAnswer envBase inp1).trace.countP (fun e => isImageFetchStart e) = 0 := by
  decide

/-- Environment with one tool call, no errors, and non-empty collaborator
results. -/
def envTool : Env :=
  { envBase with
    deltas := [Delta.toolCall,
      Delta.toolResultGetInformation
        [{ title := "t", url := "https://t", content := "c" }] [] "q2"],
    directChunks := ["direct ", "answer"], relatedChunks := ["rel1", "rel2"],
    imageResults := [{ title := "i", url := "https://i", image := "https://img" },
                     { title := "j", url := "http://j", image := "http://img" }],
    videoResults := [{ title := "v", url := "https://v" }] }

/-- C2 witness: concrete tool-call run discharging the hypothesis of
`autoAnswer_fetch_related_order` (and whose stream satisfies the
antecedents of the tool-call half). -/
theorem autoAnswer_fetch_related_order_witness :
    (autoAnswer envTool inp1).caught = false ∧
    ((0 < numToolCalls envTool.deltas →
      envTool.deltas.any (fun d => isErrorDelta d) = false →
      envTool.directError = none →
      ∃ r q ts imgs vids args,
        List.Sublist
          [Event.imageFetchStart r, Event.videoFetchStart r,
           Event.relatedCall q ts,
           Event.stream (StreamArg.json (Payload.images imgs)) false,
           Event.stream (StreamArg.json (Payload.videos vids)) false,
           Event.save args]
          (autoAnswer envTool inp1).trace ∧
        (autoAnswer envTool inp1).trace.countP (fun e => isImageFetchStart e) = 1 ∧
        (autoAnswer envTool inp1).trace.countP (fun e => isRelatedCall e) = 1 ∧
        args.images = imgs ∧ args.videos = vids) ∧
    (numToolCalls envTool.deltas = 0 →
      (autoAnswer envTool inp1).trace.countP (fun e => isImageFetchStart e) = 0 ∧
      (autoAnswer envTool inp1).trace.countP (fun e => isVideoFetchStart e) = 0)) :=
  ⟨by decide, autoAnswer_fetch_related_order envTool inp1 (by decide)⟩

/-- C8: when at least one tool call occurred, the `clear` payload is
streamed before the `directlyAnswer` call (the first-pass streamed
answer is discarded), and any persisted answer is exactly the
concatenation of the `directlyAnswer` chunks; when no tool call
occurred, the persisted answer is the concatenation of the streamed
text deltas. -/
theorem autoAnswer_answer_provenance (env : Env) (inp : Inputs)
    (hc : (autoAnswer env inp).caught = false) :
    (0 < numToolCalls env.deltas →
      (∃ src hist q ts,
        List.Sublist
          [Event.stream (StreamArg.json (Payload.statusClear "Answering ...")) false,
           Event.directAnswerCall inp.isPro src hist inp.profile inp.model q ts]
          (autoAnswer env inp).trace) ∧
      ∀ args, (autoAnswer env inp).saved = some args →
        args.answer = String.join env.directChunks) ∧
    (numToolCalls env.deltas = 0 →
      ∀ args, (autoAnswer env inp).saved = some args →
        args.answer = textDeltaConcat env.deltas) := by
  have hexn := no_catch_shape env inp hc
  obtain ⟨m, hm, hstx⟩ := exn_false_shape env inp hexn
  rw [autoAnswer_no_catch env inp hexn]
  simp only
  rw [bodyRun_some env inp m hm hstx]
  set st := runLoop m.content inp.source env.deltas with hstdef
  have htcc : st.toolCallCount = numToolCalls env.deltas := by
    rw [hstdef, runLoop_toolCallCount]
  have htp : List.Sublist
      [Event.stream (StreamArg.json (Payload.statusClear "Answering ...")) false,
       Event.directAnswerCall inp.isPro st.source
         (env.getHistoryF inp.isPro inp.messages) inp.profile inp.model
         m.content st.texts]
      (toolPreTrace env inp m.content (env.getHistoryF inp.isPro inp.messages) st) := by
    unfold toolPreTrace
    exact sublist_take _ (sublist_skip _ (List.Sublist.cons _ (List.Sublist.cons _
      (List.Sublist.cons₂ _ (List.Sublist.cons₂ _ (List.nil_sublist _))))))
  constructor
  · intro hpos
    have h1 : 0 < st.toolCallCount := by rw [htcc]; exact hpos
    cases hde : env.directError with
    | some msg =>
        rw [afterLoop_directError env inp m.content
          (env.getHistoryF inp.isPro inp.messages) st msg h1 hde]
        refine ⟨⟨st.source, env.getHistoryF inp.isPro inp.messages, m.content,
          st.texts, ?_⟩, ?_⟩
        · exact List.Sublist.cons _ (sublist_take _ htp)
        · intro args h
          simp at h
    | none =>
        by_cases h3 : st.hasError
        · rw [afterLoop_streamError env inp m.content
            (env.getHistoryF inp.isPro inp.messages) st h1 hde h3]
          refine ⟨⟨st.source, env.getHistoryF inp.isPro inp.messages, m.content,
            st.texts, ?_⟩, ?_⟩
          · exact List.Sublist.cons _ htp
          · intro args h
            simp at h
        · rw [afterLoop_tool_ok env inp m.content
            (env.getHistoryF inp.isPro inp.messages) st h1 hde (by simpa using h3)]
          refine ⟨⟨st.source, env.getHistoryF inp.isPro inp.messages, m.content,
            st.texts, ?_⟩, ?_⟩
          · exact List.Sublist.cons _
              (sublist_take _ (sublist_take _ (sublist_take _ htp)))
          · intro args h
            simp only [Option.some.injEq] at h
            rw [← h]
            rfl
  · intro h0
    have h0' : st.toolCallCount = 0 := by rw [htcc]; exact h0
    rw [afterLoop_notool env inp m.content
      (env.getHistoryF inp.isPro inp.messages) st h0']
    intro args h
    simp only [Option.some.injEq] at h
    rw [← h]
    show st.fullAnswer = textDeltaConcat env.deltas
    rw [hstdef]
    exact runLoop_fullAnswer m.content inp.source env.deltas

/-- C8 witness: concrete runs discharging the hypothesis of
`autoAnswer_answer_provenance`. -/
theorem autoAnswer_answer_provenance_witness :
    (autoAnswer envTool inp1).caught = false ∧
    ((0 < numToolCalls envTool.deltas →
      (∃ src hist q ts,
        List.Sublist
          [Event.stream (StreamArg.json (Payload.statusClear "Answering ...")) false,
           Event.directAnswerCall inp1.isPro src hist inp1.profile inp1.model q ts]
          (autoAnswer envTool inp1).trace) ∧
      ∀ args, (autoAnswer envTool inp1).saved = some args →
        args.answer = String.join envTool.directChunks) ∧
    (numToolCalls envTool.deltas = 0 →
      ∀ args, (autoAnswer envTool inp1).saved = some args →
        args.answer = textDeltaConcat envTool.deltas)) :=
  ⟨by decide, autoAnswer_answer_provenance envTool inp1 (by decide)⟩

/-- C9: on the tool-call path with no errors, the video list streamed to
the callback and persisted by `saveMessages` has at most 8 elements (the
first 8 video-search results), and the persisted image list is the loop
images extended with fetched images whose URLs all start with
`https`. -/
theorem autoAnswer_videos_images_bounds (env : Env) (inp : Inputs)
    (hc : (autoAnswer env inp).caught = false)
    (hpos : 0 < numToolCalls env.deltas)
    (hne : env.deltas.any (fun d => isErrorDelta d) = false)
    (hde : env.directError = none) :
    ∃ args, (autoAnswer env inp).saved = some args ∧
      args.videos.length ≤ 8 ∧
      args.videos = env.videoResults.take 8 ∧
      Event.stream (StreamArg.json (Payload.videos args.videos)) false ∈
        (autoAnswer env inp).trace ∧
      Event.stream (StreamArg.json (Payload.images args.images)) false ∈
        (autoAnswer env inp).trace ∧
      ∃ base fetched, args.images = base ++ fetched ∧
        ∀ i ∈ fetched, i.image.startsWith "https" = true := by
  have hexn := no_catch_shape env inp hc
  obtain ⟨m, hm, hstx⟩ := exn_false_shape env inp hexn
  rw [autoAnswer_no_catch env inp hexn]
  simp only
  rw [bodyRun_some env inp m hm hstx]
  set st := runLoop m.content inp.source env.deltas with hstdef
  have h1 : 0 < st.toolCallCount := by
    rw [hstdef, runLoop_toolCallCount]; exact hpos
  have h3 : st.hasError = false := by
    rw [hstdef, runLoop_hasError]; simpa using hne
  rw [afterLoop_tool_ok env inp m.content
    (env.getHistoryF inp.isPro inp.messages) st h1 hde h3]
  refine ⟨toolSaveArgs env inp st, rfl, ?_, rfl, ?_, ?_, st.images,
    env.imageResults.filter (fun i => i.image.startsWith "https"), rfl, ?_⟩
  · show (env.videoResults.take 8).length ≤ 8
    rw [List.length_take]
    exact min_le_left _ _
  · simp [List.mem_append, toolSaveArgs]
  · simp [List.mem_append, toolSaveArgs]
  · intro i hi
    exact (List.mem_filter.mp hi).2

/-- C9 witness: concrete tool-call run discharging the hypotheses of
`autoAnswer_videos_images_bounds`. -/
theorem autoAnswer_videos_images_bounds_witness :
    (autoAnswer envTool inp1).caught = false ∧
    0 < numToolCalls envTool.deltas ∧
    envTool.deltas.any (fun d => isErrorDelta d) = false ∧
    envTool.directError = none ∧
    ∃ args, (autoAnswer envTool inp1).saved = some args ∧
      args.videos.length ≤ 8 ∧
      args.videos = envTool.videoResults.take 8 ∧
      Event.stream (StreamArg.json (Payload.videos args.videos)) false ∈
        (autoAnswer envTool inp1).trace ∧
      Event.stream (StreamArg.json (Payload.images args.images)) false ∈
        (autoAnswer envTool inp1).trace ∧
      ∃ base fetched, args.images = base ++ fetched ∧
        ∀ i ∈ fetched, i.image.startsWith "https" = true :=
  ⟨by decide, by decide, by decide, by decide,
    autoAnswer_videos_images_bounds envTool inp1 (by decide) (by decide)
      (by decide) (by decide)⟩

/-- The post-loop phase never raises an exception. -/
theorem afterLoop_exn (env : Env) (inp : Inputs) (q h : String) (st : LoopState) :
    (afterLoop env inp q h st).exn = false := by
  unfold afterLoop
  repeat' split
  all_goals rfl

/-- On the non-throwing entry path, the `streamText` call with the built
configuration is in the trace. -/
theorem streamTextCall_mem (env : Env) (inp : Inputs) (m : StoreMessage)
    (hm : inp.messages.getLast? = some m) (hstx : env.streamTextExn = false) :
    Event.streamTextCall (mkConfig env inp m) ∈ (autoAnswer env inp).trace := by
  have hexn : (bodyRun env inp).exn = false := by
    unfold bodyRun
    rw [hm]
    simp [hstx, afterLoop_exn]
  rw [autoAnswer_no_catch env inp hexn]
  simp only
  rw [bodyRun_some env inp m hm hstx]
  exact List.mem_cons_self _ _

/-- The post-loop phase never emits a `streamText` call event. -/
theorem afterLoop_no_stc (env : Env) (inp : Inputs) (q h : String) (st : LoopState)
    (hs : ∀ e ∈ st.trace, isStreamTextCall e = false) :
    ∀ e ∈ (afterLoop env inp q h st).trace, isStreamTextCall e = false := by
  intro e he
  unfold afterLoop at he
  repeat' split at he
  all_goals
    simp only [List.mem_append, List.mem_cons, List.mem_singleton, List.not_mem_nil,
      or_false, answerEvents, relatedEvents, List.mem_map] at he
  all_goals
    (try casesm* _ ∨ _, Exists _, _ ∧ _) <;> subst_vars <;>
    first
      | exact hs _ ‹_›
      | rfl

/-- C5: every `streamText` configuration `autoAnswer` passes to the
model offers exactly two tools — `getInformation`, whose `execute` calls
`searchRelevantContent`, and `accessWebPage`, whose `execute` calls
`accessWebPage` — and no others; and on the non-throwing entry path the
`streamText` call with that configuration is actually made. -/
theorem autoAnswer_exactly_two_tools (env : Env) (inp : Inputs) :
    (∀ cfg, Event.streamTextCall cfg ∈ (autoAnswer env inp).trace →
      cfg.tools.length = 2 ∧
      cfg.tools.map (fun t => t.name) = ["getInformation", "accessWebPage"] ∧
      cfg.tools.map (fun t => t.backend) =
        [ToolBackend.searchRelevantContent inp.userId, ToolBackend.accessWebPage]) ∧
    (∀ m, inp.messages.getLast? = some m → env.streamTextExn = false →
      Event.streamTextCall (mkConfig env inp m) ∈ (autoAnswer env inp).trace) := by
  constructor
  · intro cfg hcfg
    have hbody : Event.streamTextCall cfg ∈ (bodyRun env inp).trace := by
      unfold autoAnswer at hcfg
      by_cases hexn : (bodyRun env inp).exn
      · simp only [hexn, if_true, List.mem_append, List.mem_cons,
          List.mem_singleton, List.not_mem_nil, or_false] at hcfg
        rcases hcfg with hcfg | hcfg | hcfg
        · exact hcfg
        · exact absurd hcfg (by simp)
        · exact absurd hcfg (by simp)
      · simpa [hexn] using hcfg
    unfold bodyRun at hbody
    cases hm : inp.messages.getLast? with
    | none => rw [hm] at hbody; simp at hbody
    | some m =>
        rw [hm] at hbody
        by_cases hstx : env.streamTextExn
        · simp [hstx] at hbody
        · simp only [hstx, Bool.false_eq_true, if_neg, not_false_iff,
            List.mem_cons] at hbody
          rcases hbody with hbody | hbody
          · have hc : cfg = mkConfig env inp m := by injection hbody
            subst hc
            exact ⟨rfl, rfl, rfl⟩
          · have := afterLoop_no_stc env inp m.content
              (env.getHistoryF inp.isPro inp.messages)
              (runLoop m.content inp.source env.deltas)
              (fun e he => loopEvent_not_stc e
                (runLoop_loopEvent m.content inp.source env.deltas e he))
              _ hbody
            simp [isStreamTextCall] at this
  · intro m hm hstx
    exact streamTextCall_mem env inp m hm hstx

/-- C5 witness: the configuration actually streamed on a concrete run
carries exactly the two tools. -/
theorem autoAnswer_exactly_two_tools_witness :
    Event.streamTextCall (mkConfig envBase inp1 msg1) ∈
      (autoAnswer envBase inp1).trace ∧
    (mkConfig envBase inp1 msg1).tools.length = 2 ∧
    (mkConfig envBase inp1 msg1).tools.map (fun t => t.name) =
      ["getInformation", "accessWebPage"] ∧
    (mkConfig envBase inp1 msg1).tools.map (fun t => t.backend) =
      [ToolBackend.searchRelevantContent inp1.userId, ToolBackend.accessWebPage] :=
  ⟨(autoAnswer_exactly_two_tools envBase inp1).2 msg1 (by decide) (by decide),
   (autoAnswer_exactly_two_tools envBase inp1).1 (mkConfig envBase inp1 msg1)
     ((autoAnswer_exactly_two_tools envBase inp1).2 msg1 (by decide) (by decide))⟩

/-- C6: on the non-throwing entry path, the `streamText` call is made
with user messages built by `createUserMessages` solely from the last
input message (its text content and its attachments, defaulting to
extracted image URLs), while the history of the whole conversation
enters only the system prompt; the user messages do not depend on the
rest of the input list at all. -/
theorem autoAnswer_user_messages_from_last (env : Env) (inp : Inputs)
    (m : StoreMessage) (hm : inp.messages.getLast? = some m)
    (hstx : env.streamTextExn = false) :
    Event.streamTextCall (mkConfig env inp m) ∈ (autoAnswer env inp).trace ∧
    (mkConfig env inp m).userMessages =
      createUserMessages env m.content (m.attachments.getD []) ∧
    (mkConfig env inp m).system =
      env.formatPrompt inp.profile (env.getHistoryF inp.isPro inp.messages) ∧
    ∀ inp2 : Inputs,
      (mkConfig env inp2 m).userMessages = (mkConfig env inp m).userMessages := by
  exact ⟨streamTextCall_mem env inp m hm hstx, rfl, rfl, fun inp2 => rfl⟩

/-- C6 witness: concrete run discharging the hypotheses of
`autoAnswer_user_messages_from_last`. -/
theorem autoAnswer_user_messages_witness :
    inp1.messages.getLast? = some msg1 ∧
    envBase.streamTextExn = false ∧
    (Event.streamTextCall (mkConfig envBase inp1 msg1) ∈
        (autoAnswer envBase inp1).trace ∧
      (mkConfig envBase inp1 msg1).userMessages =
        createUserMessages envBase msg1.content (msg1.attachments.getD []) ∧
      (mkConfig envBase inp1 msg1).system =
        envBase.formatPrompt inp1.profile
          (envBase.getHistoryF inp1.isPro inp1.messages) ∧
      ∀ inp2 : Inputs,
        (mkConfig envBase inp2 msg1).userMessages =
          (mkConfig envBase inp1 msg1).userMessages) :=
  ⟨by decide, by decide,
    autoAnswer_user_messages_from_last envBase inp1 msg1 (by decide) (by decide)⟩

/-- C7 witness: a concrete event of a concrete run is a well-formed
stream invocation. -/
theorem autoAnswer_stream_payloads_witness :
    Event.stream StreamArg.nullArg true ∈ (autoAnswer envBase inp1).trace ∧
    streamOk (Event.stream StreamArg.nullArg true) = true :=
  ⟨by decide,
    autoAnswer_stream_payloads_wellformed envBase inp1
      (Event.stream StreamArg.nullArg true) (by decide)⟩
